import Mathlib

/-!
Verification of the image-upload service (Flask HTTP API + SQS-triggered
worker) against its natural-language specification.

The embedding models the two Python units as pure Lean functions:
* the HTTP handlers of `app.py` as functions from a request and an
  application state (object store, metadata table, clock tick, database
  availability) to a response, a list of emitted external-service calls
  (`Effect`s), and a successor state;
* the worker `lambda_handler` of `src/app.py` as a function from a batch
  of queue records to the list of topic publishes it performs and either
  a raised error or the success payload.

JSON values are a small inductive type; `json_dumps` mirrors Python's
`json.dumps` with default separators, and `json_loads` is a fueled
recursive-descent parser for the JSON fragment the queue schema uses
(numbers are restricted to integers — the schema's only numeric field is
a byte count; `\u` escapes are not modelled).  Wall-clock time is
abstracted to a `Nat` tick: the relational store stamps `last_update`
with the tick at insert, mirroring the spec's "timestamp set by the
store on insert".
-/

/-- JSON values (the fragment exchanged by the service). -/
inductive JVal where
  | str (s : String)
  | num (n : Int)
  | bool (b : Bool)
  | null
  | arr (xs : List JVal)
  | obj (fields : List (String × JVal))

/-- Escape one character the way `json.dumps` renders it inside a string
literal (common escapes; `\u` escapes for other control characters are
not needed by the service's payloads). -/
def escChar (c : Char) : List Char :=
  if c = '"' then ['\\', '"']
  else if c = '\\' then ['\\', '\\']
  else if c = '\n' then ['\\', 'n']
  else if c = '\t' then ['\\', 't']
  else if c = '\r' then ['\\', 'r']
  else [c]

/-- String-body escaping of `json.dumps`. -/
def jstrEscape (s : String) : String :=
  String.mk (s.data.flatMap escChar)

mutual
/-- `json.dumps` with Python's default separators `", "` and `": "`. -/
def json_dumps : JVal → String
  | .str s => "\"" ++ jstrEscape s ++ "\""
  | .num n => toString n
  | .bool b => if b then "true" else "false"
  | .null => "null"
  | .arr xs => "[" ++ dumpsArr xs ++ "]"
  | .obj fs => "\x7b" ++ dumpsObj fs ++ "\x7d"

/-- Comma-joined array elements. -/
def dumpsArr : List JVal → String
  | [] => ""
  | [x] => json_dumps x
  | x :: y :: rest => json_dumps x ++ ", " ++ dumpsArr (y :: rest)

/-- Comma-joined `"key": value` object members. -/
def dumpsObj : List (String × JVal) → String
  | [] => ""
  | [(k, v)] => "\"" ++ jstrEscape k ++ "\": " ++ json_dumps v
  | (k, v) :: p :: rest =>
      "\"" ++ jstrEscape k ++ "\": " ++ json_dumps v ++ ", " ++ dumpsObj (p :: rest)
end

/-- Skip JSON whitespace. -/
def skipWs : List Char → List Char
  | [] => []
  | c :: rest =>
      if c = ' ' ∨ c = '\n' ∨ c = '\t' ∨ c = '\r' then skipWs rest else c :: rest

/-- Decode a JSON string escape character. -/
def escDecode (c : Char) : Option Char :=
  if c = '"' then some '"'
  else if c = '\\' then some '\\'
  else if c = '/' then some '/'
  else if c = 'n' then some '\n'
  else if c = 't' then some '\t'
  else if c = 'r' then some '\r'
  else if c = 'b' then some (Char.ofNat 8)
  else if c = 'f' then some (Char.ofNat 12)
  else none

/-- Parse the body of a JSON string literal (after the opening quote). -/
def parseStringBody : List Char → Except String (List Char × List Char)
  | [] => .error "Unterminated string"
  | '"' :: rest => .ok ([], rest)
  | '\\' :: rest =>
      match rest with
      | [] => .error "Unterminated string"
      | e :: rest2 =>
          match escDecode e with
          | some c => (parseStringBody rest2).map (fun p => (c :: p.1, p.2))
          | none => .error "Invalid escape"
  | c :: rest => (parseStringBody rest).map (fun p => (c :: p.1, p.2))

/-- Parse a run of decimal digits, accumulating into `acc`. -/
def parseDigits : List Char → Nat → Nat × List Char
  | [], acc => (acc, [])
  | c :: rest, acc =>
      if c.isDigit then parseDigits rest (acc * 10 + (c.toNat - 48)) else (acc, c :: rest)

mutual
/-- Fueled recursive-descent parser for a JSON value (integers only among
numbers, matching the queue schema). -/
def parseVal : Nat → List Char → Except String (JVal × List Char)
  | 0, _ => .error "Out of fuel"
  | fuel + 1, cs =>
      match skipWs cs with
      | [] => .error "Expecting value"
      | '"' :: rest => (parseStringBody rest).map (fun p => (JVal.str (String.mk p.1), p.2))
      | '\x7b' :: rest => parseObjBody fuel (skipWs rest)
      | '[' :: rest => parseArrBody fuel (skipWs rest)
      | '-' :: c :: rest =>
          if c.isDigit then
            let p := parseDigits rest (c.toNat - 48)
            .ok (JVal.num (-(p.1 : Int)), p.2)
          else .error "Expecting value"
      | 't' :: 'r' :: 'u' :: 'e' :: rest => .ok (JVal.bool true, rest)
      | 'f' :: 'a' :: 'l' :: 's' :: 'e' :: rest => .ok (JVal.bool false, rest)
      | 'n' :: 'u' :: 'l' :: 'l' :: rest => .ok (JVal.null, rest)
      | c :: rest =>
          if c.isDigit then
            let p := parseDigits rest (c.toNat - 48)
            .ok (JVal.num (p.1 : Int), p.2)
          else .error "Expecting value"

/-- Parse an object body: either `}` or a member list (whitespace before
the first token already skipped). -/
def parseObjBody : Nat → List Char → Except String (JVal × List Char)
  | 0, _ => .error "Out of fuel"
  | fuel + 1, cs =>
      match cs with
      | '\x7d' :: rest => .ok (JVal.obj [], rest)
      | cs' =>
          match parseMembers fuel cs' with
          | .ok (fs, rest) =>
              match skipWs rest with
              | '\x7d' :: rest2 => .ok (JVal.obj fs, rest2)
              | _ => .error "Expecting delimiter"
          | .error e => .error e

/-- Parse one or more `"key": value` members separated by commas. -/
def parseMembers : Nat → List Char → Except String (List (String × JVal) × List Char)
  | 0, _ => .error "Out of fuel"
  | fuel + 1, cs =>
      match skipWs cs with
      | '"' :: rest =>
          match parseStringBody rest with
          | .ok (k, rest2) =>
              match skipWs rest2 with
              | ':' :: rest3 =>
                  match parseVal fuel rest3 with
                  | .ok (v, rest4) =>
                      match skipWs rest4 with
                      | ',' :: rest5 =>
                          (parseMembers fuel rest5).map
                            (fun p => ((String.mk k, v) :: p.1, p.2))
                      | rest5 => .ok ([(String.mk k, v)], rest5)
                  | .error e => .error e
              | _ => .error "Expecting colon"
          | .error e => .error e
      | _ => .error "Expecting property name"

/-- Parse an array body: either `]` or an element list. -/
def parseArrBody : Nat → List Char → Except String (JVal × List Char)
  | 0, _ => .error "Out of fuel"
  | fuel + 1, cs =>
      match cs with
      | ']' :: rest => .ok (JVal.arr [], rest)
      | cs' =>
          match parseElems fuel cs' with
          | .ok (xs, rest) =>
              match skipWs rest with
              | ']' :: rest2 => .ok (JVal.arr xs, rest2)
              | _ => .error "Expecting delimiter"
          | .error e => .error e

/-- Parse one or more array elements separated by commas. -/
def parseElems : Nat → List Char → Except String (List JVal × List Char)
  | 0, _ => .error "Out of fuel"
  | fuel + 1, cs =>
      match parseVal fuel cs with
      | .ok (v, rest) =>
          match skipWs rest with
          | ',' :: rest2 => (parseElems fuel rest2).map (fun p => (v :: p.1, p.2))
          | rest2 => .ok ([v], rest2)
      | .error e => .error e
end

/-- `json.loads`: parse a complete JSON document. -/
def json_loads (s : String) : Except String JVal :=
  match parseVal (s.length + 1) s.data with
  | .ok (v, rest) => if (skipWs rest).isEmpty then .ok v else .error "Extra data"
  | .error e => .error e

/-- `filename.rsplit('.', 1)[1].lower() if '.' in filename else ''` from
`upload_image` (app.py line 206): the substring after the last `'.'`,
ASCII-lowercased, and the empty string when the filename has no dot. -/
def file_extension_of (filename : String) : String :=
  if filename.data.contains '.' then
    String.mk (((filename.data.reverse.takeWhile (fun c => c ≠ '.')).reverse).map Char.toLower)
  else ""

/-- Round `n * 100 / 1024` half-to-even: the hundredths-digit rounding that
CPython's `f"{n / 1024:.2f}"` performs (exact for `n < 2 ^ 53`, where
`n / 1024` is an exact binary double). -/
def round2KB (n : Nat) : Nat :=
  let s := n * 100
  let q := s / 1024
  let r := s % 1024
  if r < 512 then q
  else if 512 < r then q + 1
  else if q % 2 = 0 then q else q + 1

/-- Render a natural number of hundredths as a two-decimal string. -/
def renderHundredths (h : Nat) : String :=
  toString (h / 100) ++ "." ++ (if h % 100 < 10 then "0" else "") ++ toString (h % 100)

/-- `f"{file_size / 1024:.2f}"` from the worker (src/app.py line 42). -/
def formatKB (n : Int) : String :=
  if n < 0 then "-" ++ renderHundredths (round2KB n.natAbs)
  else renderHundredths (round2KB n.natAbs)

/-- `datetime.utcnow().isoformat()` abstracted over the model's clock tick;
the claims constrain only which tick is stamped, not the rendering. -/
def isoTimestamp (t : Nat) : String := "T" ++ toString t

/-- A process environment: variable-name/value bindings. -/
structure Env where
  vars : List (String × String)

/-- `os.getenv(key)`: `None` when unset. -/
def getenv (env : Env) (k : String) : Option String :=
  env.vars.lookup k

/-- `os.getenv(key, default)`. -/
def getenvD (env : Env) (k d : String) : String :=
  (getenv env k).getD d

namespace FlaskApp

/-- `SQS_QUEUE_URL = os.getenv('SQS_QUEUE_URL')` (app.py line 17). -/
def SQS_QUEUE_URL (env : Env) : Option String := getenv env "SQS_QUEUE_URL"

/-- `SNS_TOPIC_ARN = os.getenv('SNS_TOPIC_ARN')` (app.py line 18). -/
def SNS_TOPIC_ARN (env : Env) : Option String := getenv env "SNS_TOPIC_ARN"

/-- `RDS_HOST = os.getenv('RDS_HOST')` (app.py line 28). -/
def RDS_HOST (env : Env) : Option String := getenv env "RDS_HOST"

/-- `RDS_USER = os.getenv('RDS_USER', 'admin')` (app.py line 29). -/
def RDS_USER (env : Env) : String := getenvD env "RDS_USER" "admin"

/-- `RDS_PASSWORD = os.getenv('RDS_PASSWORD')` (app.py line 30). -/
def RDS_PASSWORD (env : Env) : Option String := getenv env "RDS_PASSWORD"

/-- `RDS_DATABASE = os.getenv('RDS_DATABASE', 'images_db')` (app.py line 31). -/
def RDS_DATABASE (env : Env) : String := getenvD env "RDS_DATABASE" "images_db"

/-- `S3_BUCKET = os.getenv('S3_BUCKET', 'martin-aleksiev-bucket-603196661040')`
(app.py line 32). -/
def S3_BUCKET (env : Env) : String :=
  getenvD env "S3_BUCKET" "martin-aleksiev-bucket-603196661040"

end FlaskApp

/-- A call made to an external managed service (object store, relational
table, queue, topic) or to the logger's error level. -/
inductive Effect where
  | s3Put (bucket key : String) (body : List Nat)
  | s3Get (bucket key : String)
  | s3Delete (bucket key : String)
  | dbInsert (image_name : String) (file_size : Nat) (file_extension s3_key : String)
  | dbDeleteByName (image_name : String)
  | sqsSend (queueUrl body attrExtension : String)
  | snsPublish (topicArn subject message attrExtension : String)
  | logError (msg : String)

/-- A row of the `image_metadata` table.  `last_update` is stamped by the
relational store at insert (spec §3; the table schema itself is not in the
repository), modelled as the clock tick of the inserting request. -/
structure MetaRow where
  image_name : String
  file_size : Nat
  file_extension : String
  s3_key : String
  last_update : Nat

namespace FlaskApp

/-- Response body: JSON (via `jsonify`), a file attachment (`send_file`),
or an HTML page. -/
inductive RespBody where
  | json (v : JVal)
  | file (download_name : String) (bytes : List Nat)
  | html (s : String)

/-- An HTTP response: status code and body. -/
structure Response where
  status : Nat
  body : RespBody

/-- Deployment configuration resolved from the environment at start. -/
structure Config where
  bucket : String
  queueUrl : String

/-- External state visible to the API service: the object store's
key/bytes map (within the configured bucket), the metadata table in
insertion order, whether `get_db_connection` succeeds, and the clock tick. -/
structure AppState where
  s3 : List (String × List Nat)
  db : List MetaRow
  dbOk : Bool
  now : Nat

/-- Object-store put: replaces any existing object at the key. -/
def putObject (s3 : List (String × List Nat)) (k : String) (v : List Nat) :
    List (String × List Nat) :=
  s3.filter (fun p => p.1 ≠ k) ++ [(k, v)]

/-- The multipart `file` field of an upload request. -/
structure FilePart where
  filename : String
  content : List Nat

/-- An upload request: `none` models a request with no `file` part. -/
structure UploadRequest where
  file : Option FilePart

/-- The SQS message body built by `upload_image` (app.py lines 241..247). -/
def uploadMessage (filename : String) (file_size : Nat)
    (file_extension timestamp s3_key : String) : JVal :=
  .obj [("image_name", .str filename), ("file_size", .num file_size),
        ("file_extension", .str file_extension), ("timestamp", .str timestamp),
        ("s3_key", .str s3_key)]

/-- `upload_image` (app.py lines 186..272): validates the file part, derives
extension and size, puts the object, inserts the metadata row, sends the
queue message, and returns 201 with name/size/extension.  A `False` `dbOk`
models `get_db_connection()` returning `None` (the 500 path after the
object write).  Failures of the provider calls themselves (the generic
`except` → 500) are outside the model. -/
def upload_image (cfg : Config) (req : UploadRequest) (st : AppState) :
    Response × List Effect × AppState :=
  match req.file with
  | none => (⟨400, .json (.obj [("error", .str "No file provided")])⟩, [], st)
  | some f =>
    if f.filename = "" then
      (⟨400, .json (.obj [("error", .str "No file selected")])⟩, [], st)
    else
      let filename := f.filename
      let file_extension := file_extension_of filename
      let file_content := f.content
      let file_size := file_content.length
      let s3_key := "images/" ++ filename
      let st1 : AppState := { st with s3 := putObject st.s3 s3_key file_content }
      if st.dbOk = false then
        (⟨500, .json (.obj [("error", .str "Database connection failed")])⟩,
         [.s3Put cfg.bucket s3_key file_content], st1)
      else
        let row : MetaRow := ⟨filename, file_size, file_extension, s3_key, st.now⟩
        let msg := uploadMessage filename file_size file_extension (isoTimestamp st.now) s3_key
        (⟨201, .json (.obj
            [("success", .bool true),
             ("message", .str ("Image " ++ filename ++ " uploaded successfully")),
             ("image_name", .str filename),
             ("size", .num file_size),
             ("extension", .str file_extension)])⟩,
         [.s3Put cfg.bucket s3_key file_content,
          .dbInsert filename file_size file_extension s3_key,
          .sqsSend cfg.queueUrl (json_dumps msg) file_extension],
         { st1 with db := st.db ++ [row], now := st.now + 1 })

/-- `download_image` (app.py lines 274..300): fetch `images/{name}`; a
missing object raises `NoSuchKey`, answered with a 404 error body. -/
def download_image (cfg : Config) (image_name : String) (st : AppState) :
    Response × List Effect × AppState :=
  let s3_key := "images/" ++ image_name
  match st.s3.lookup s3_key with
  | some bytes =>
      (⟨200, .file image_name bytes⟩, [.s3Get cfg.bucket s3_key], st)
  | none =>
      (⟨404, .json (.obj [("error", .str ("Image " ++ image_name ++ " not found"))])⟩,
       [.s3Get cfg.bucket s3_key], st)

/-- `delete_image` (app.py lines 388..431): deletes the metadata row first;
`rowcount == 0` answers 404 without touching the object store; otherwise
the object delete is issued unconditionally. -/
def delete_image (cfg : Config) (image_name : String) (st : AppState) :
    Response × List Effect × AppState :=
  if st.dbOk = false then
    (⟨500, .json (.obj [("error", .str "Database connection failed")])⟩, [], st)
  else
    let rowcount := (st.db.filter (fun r => r.image_name = image_name)).length
    let db' := st.db.filter (fun r => r.image_name ≠ image_name)
    if rowcount = 0 then
      (⟨404, .json (.obj [("error", .str ("Image " ++ image_name ++ " not found"))])⟩,
       [.dbDeleteByName image_name], { st with db := db' })
    else
      let s3_key := "images/" ++ image_name
      (⟨200, .json (.obj
          [("success", .bool true),
           ("message", .str ("Image " ++ image_name ++ " deleted successfully"))])⟩,
       [.dbDeleteByName image_name, .s3Delete cfg.bucket s3_key],
       { st with db := db', s3 := st.s3.filter (fun p => p.1 ≠ s3_key) })

/-- JSON rendering of one row in the listing response (app.py lines 458..466). -/
def rowJson (r : MetaRow) : JVal :=
  .obj [("name", .str r.image_name), ("size_bytes", .num r.file_size),
        ("extension", .str r.file_extension),
        ("last_update", .str (isoTimestamp r.last_update))]

/-- `SELECT ... ORDER BY last_update DESC` of `list_images`. -/
def sortedRows (db : List MetaRow) : List MetaRow :=
  db.mergeSort (fun a b => decide (b.last_update ≤ a.last_update))

/-- `list_images` (app.py lines 433..474): all rows ordered by
`last_update` descending, with their count as `total`. -/
def list_images (st : AppState) : Response × List Effect × AppState :=
  if st.dbOk = false then
    (⟨500, .json (.obj [("error", .str "Database connection failed")])⟩, [], st)
  else
    let results := sortedRows st.db
    (⟨200, .json (.obj [("images", .arr (results.map rowJson)),
                        ("total", .num results.length)])⟩, [], st)

end FlaskApp

namespace Worker

/-- `SNS_TOPIC_ARN = os.getenv('SNS_TOPIC_ARN')` (src/app.py line 12). -/
def SNS_TOPIC_ARN (env : Env) : Option String := getenv env "SNS_TOPIC_ARN"

/-- One record of an SQS batch event: its `body` string. -/
structure SqsRecord where
  body : String

/-- The worker's Lambda-style success payload. -/
structure LambdaResult where
  statusCode : Nat
  body : String

/-- The four fields the worker reads from a message body
(src/app.py lines 28..31).  The model fixes the schema's field types:
`image_name`, `file_extension` and `timestamp` strings, `file_size` a
number (a non-numeric `file_size` raises in the source too, at the
`file_size / 1024` format expression, so it is likewise an error here). -/
structure UploadFields where
  image_name : String
  file_size : Int
  file_extension : String
  timestamp : String

/-- `message_body[key]`: dictionary indexing, `KeyError` when absent. -/
def getItem (v : JVal) (k : String) : Except String JVal :=
  match v with
  | .obj fields =>
      match fields.lookup k with
      | some x => .ok x
      | none => .error ("KeyError: " ++ k)
  | _ => .error "TypeError: indices"

/-- Require a JSON string. -/
def asStr : JVal → Except String String
  | .str s => .ok s
  | _ => .error "TypeError: expected string"

/-- Require a JSON number. -/
def asInt : JVal → Except String Int
  | .num n => .ok n
  | _ => .error "TypeError: unsupported operand"

/-- `json.loads(record['body'])` followed by the four field reads
(src/app.py lines 26..31): everything inside the per-record `try` that can
raise before the publish. -/
def decodeUpload (body : String) : Except String UploadFields := do
  let v ← json_loads body
  let n ← asStr (← getItem v "image_name")
  let sz ← asInt (← getItem v "file_size")
  let ext ← asStr (← getItem v "file_extension")
  let ts ← asStr (← getItem v "timestamp")
  .ok ⟨n, sz, ext, ts⟩

/-- The fixed notification template (src/app.py lines 35..46). -/
def snsMessageText (f : UploadFields) : String :=
  "Image Upload Notification\n========================\n\nAn image has been uploaded to the image repository.\n\nImage Details:\n- Name: "
    ++ f.image_name
    ++ "\n- Size: " ++ toString f.file_size ++ " bytes (" ++ formatKB f.file_size
    ++ " KB)\n- Extension: " ++ f.file_extension
    ++ "\n- Uploaded: " ++ f.timestamp
    ++ "\n\nThank you for using our image upload service!"

/-- The topic publish a successfully decoded record produces
(src/app.py lines 48..58). -/
def publishEffect (topicArn : String) (f : UploadFields) : Effect :=
  .snsPublish topicArn ("Image Upload: " ++ f.image_name) (snsMessageText f)
    f.file_extension

/-- The effects one record contributes when processed in isolation:
one publish if it decodes, nothing before the raise if not. -/
def publishFor (topicArn : String) (r : SqsRecord) : List Effect :=
  match decodeUpload r.body with
  | .ok f => [publishEffect topicArn f]
  | .error _ => []

/-- The worker's per-record loop (src/app.py lines 24..64): publish each
decoded record; on the first failure, log the error and re-raise,
abandoning the rest of the batch. -/
def processRecords (topicArn : String) : List SqsRecord → List Effect × Option String
  | [] => ([], none)
  | r :: rest =>
      match decodeUpload r.body with
      | .error e => ([.logError ("Error processing message: " ++ e)], some e)
      | .ok f =>
          let res := processRecords topicArn rest
          (publishEffect topicArn f :: res.1, res.2)

/-- `lambda_handler` (src/app.py lines 14..69): process the batch; a raised
error propagates (`Except.error`), otherwise return the 200 payload whose
body is `json.dumps(f'Processed {len(records)} messages')`. -/
def lambda_handler (topicArn : String) (records : List SqsRecord) :
    List Effect × Except String LambdaResult :=
  let res := processRecords topicArn records
  match res.2 with
  | some e => (res.1, .error e)
  | none =>
      (res.1, .ok ⟨200,
        json_dumps (.str ("Processed " ++ toString records.length ++ " messages"))⟩)

end Worker

theorem takeWhile_append_stop {α : Type} (p : α → Bool) {l : List α} (x : α) (r : List α)
    (hl : ∀ c ∈ l, p c = true) (hx : p x = false) :
    (l ++ x :: r).takeWhile p = l := by
  induction l with
  | nil => simp [List.takeWhile_cons, hx]
  | cons a as ih =>
      simp only [List.cons_append, List.takeWhile_cons, hl a (by simp)]
      simp [ih (fun c hc => hl c (by simp [hc]))]

/-- C2: the claim that only the relational-store user and database name
have environment defaults is false: with `S3_BUCKET` unset, the bucket
name silently resolves to a hard-coded default instead of being absent
(app.py line 32), while the host, left unset, is `none`. -/
theorem C2_bucket_default_counterexample :
    getenv ⟨[]⟩ "S3_BUCKET" = none ∧
    FlaskApp.S3_BUCKET ⟨[]⟩ = "martin-aleksiev-bucket-603196661040" ∧
    FlaskApp.RDS_HOST ⟨[]⟩ = none := by
  refine ⟨rfl, rfl, rfl⟩

/-- C2 (amended): in any environment leaving all seven variables unset,
the queue URL, topic ARN, relational-store host and password resolve to
`none` (no default), while the relational-store user, database name, AND
the object-store bucket name fall back to defaults (`admin`, `images_db`,
`martin-aleksiev-bucket-603196661040`). -/
theorem C2_env_defaults (env : Env)
    (hq : getenv env "SQS_QUEUE_URL" = none)
    (ht : getenv env "SNS_TOPIC_ARN" = none)
    (hh : getenv env "RDS_HOST" = none)
    (hp : getenv env "RDS_PASSWORD" = none)
    (hu : getenv env "RDS_USER" = none)
    (hd : getenv env "RDS_DATABASE" = none)
    (hb : getenv env "S3_BUCKET" = none) :
    FlaskApp.SQS_QUEUE_URL env = none ∧
    FlaskApp.SNS_TOPIC_ARN env = none ∧
    FlaskApp.RDS_HOST env = none ∧
    FlaskApp.RDS_PASSWORD env = none ∧
    FlaskApp.RDS_USER env = "admin" ∧
    FlaskApp.RDS_DATABASE env = "images_db" ∧
    FlaskApp.S3_BUCKET env = "martin-aleksiev-bucket-603196661040" := by
  refine ⟨hq, ht, hh, hp, ?_, ?_, ?_⟩ <;>
    simp [FlaskApp.RDS_USER, FlaskApp.RDS_DATABASE, FlaskApp.S3_BUCKET, getenvD, hu, hd, hb]

/-- C2 witness: the amended statement instantiated at the empty environment. -/
theorem C2_env_defaults_witness :
    FlaskApp.SQS_QUEUE_URL ⟨[]⟩ = none ∧
    FlaskApp.SNS_TOPIC_ARN ⟨[]⟩ = none ∧
    FlaskApp.RDS_HOST ⟨[]⟩ = none ∧
    FlaskApp.RDS_PASSWORD ⟨[]⟩ = none ∧
    FlaskApp.RDS_USER ⟨[]⟩ = "admin" ∧
    FlaskApp.RDS_DATABASE ⟨[]⟩ = "images_db" ∧
    FlaskApp.S3_BUCKET ⟨[]⟩ = "martin-aleksiev-bucket-603196661040" :=
  C2_env_defaults ⟨[]⟩ rfl rfl rfl rfl rfl rfl rfl

/-- C7: downloading a name whose object is absent from the object store
returns a 404 response with body `{"error": "Image {name} not found"}`,
the requested name substituted. -/
theorem C7_download_not_found (cfg : FlaskApp.Config) (image_name : String)
    (st : FlaskApp.AppState)
    (h : st.s3.lookup ("images/" ++ image_name) = none) :
    (FlaskApp.download_image cfg image_name st).1 =
      ⟨404, .json (.obj [("error", .str ("Image " ++ image_name ++ " not found"))])⟩ := by
  simp [FlaskApp.download_image, h]

/-- C7 witness: download of `cat.png` against an empty object store. -/
theorem C7_download_not_found_witness :
    (FlaskApp.download_image ⟨"b", "q"⟩ "cat.png" ⟨[], [], true, 0⟩).1 =
      ⟨404, .json (.obj [("error", .str "Image cat.png not found")])⟩ :=
  C7_download_not_found ⟨"b", "q"⟩ "cat.png" ⟨[], [], true, 0⟩ rfl

/-- C9: the recorded extension is the ASCII-lowercased substring after
the last `'.'` of the filename; a dot-free filename yields the empty
extension, `"photo."` yields the empty extension, `"archive.tar.gz"`
yields `"gz"`, and `".png"` yields `"png"`. -/
theorem C9_extension_from_filename (filename : String) :
    (filename.data.contains '.' = false → file_extension_of filename = "") ∧
    (∀ pre post : List Char, post.contains '.' = false →
        filename.data = pre ++ '.' :: post →
        file_extension_of filename = String.mk (post.map Char.toLower)) ∧
    file_extension_of "photo." = "" ∧
    file_extension_of "archive.tar.gz" = "gz" ∧
    file_extension_of ".png" = "png" := by
  refine ⟨?_, ?_, by decide, by decide, by decide⟩
  · intro h
    simp only [file_extension_of, h, Bool.false_eq_true, if_false]
  · intro pre post hpost hdata
    have hmem : '.' ∉ post := by simpa using hpost
    have hcon : filename.data.contains '.' = true := by
      rw [hdata]; simp
    simp only [file_extension_of, hcon, if_pos]
    rw [hdata]
    rw [show (pre ++ '.' :: post).reverse = post.reverse ++ '.' :: pre.reverse by simp]
    rw [takeWhile_append_stop _ '.' pre.reverse
      (fun c hc => by
        simp only [decide_eq_true_eq]
        intro hEq; exact hmem (by simpa [hEq] using (List.mem_reverse.mp hc)))
      (by simp)]
    simp

/-- C9 witness: the dot-free case at `"noext"` and the general case at
`"a.TXT"` (lowercasing the final segment). -/
theorem C9_extension_from_filename_witness :
    file_extension_of "noext" = "" ∧ file_extension_of "a.TXT" = "txt" :=
  ⟨(C9_extension_from_filename "noext").1 (by decide),
   (C9_extension_from_filename "a.TXT").2.1 "a".data "TXT".data (by decide) (by decide)⟩

/-- C4: when no metadata row matches the name, `delete_image` issues the
row delete first and only (its sole effect), answers 404, and leaves the
object store untouched; when a row was deleted, the object-store delete is
issued unconditionally, after the row delete. -/
theorem C4_delete_metadata_first (cfg : FlaskApp.Config) (image_name : String)
    (st : FlaskApp.AppState) (hdb : st.dbOk = true) :
    ((st.db.filter (fun r => r.image_name = image_name)).length = 0 →
      (FlaskApp.delete_image cfg image_name st).1 =
        ⟨404, .json (.obj [("error", .str ("Image " ++ image_name ++ " not found"))])⟩ ∧
      (FlaskApp.delete_image cfg image_name st).2.1 = [.dbDeleteByName image_name] ∧
      (FlaskApp.delete_image cfg image_name st).2.2.s3 = st.s3) ∧
    ((st.db.filter (fun r => r.image_name = image_name)).length ≠ 0 →
      (FlaskApp.delete_image cfg image_name st).2.1 =
        [.dbDeleteByName image_name, .s3Delete cfg.bucket ("images/" ++ image_name)]) := by
  constructor
  · intro h
    refine ⟨?_, ?_, ?_⟩ <;> simp [FlaskApp.delete_image, hdb, h]
  · intro h
    simp [FlaskApp.delete_image, hdb, h]

/-- C4 witness: deleting `cat.png` with an empty table (404, no object
delete) and with one matching row (row delete then object delete). -/
theorem C4_delete_metadata_first_witness :
    (FlaskApp.delete_image ⟨"b", "q"⟩ "cat.png" ⟨[("images/cat.png", [7])], [], true, 0⟩).2.1 =
      [.dbDeleteByName "cat.png"] ∧
    (FlaskApp.delete_image ⟨"b", "q"⟩ "cat.png"
        ⟨[("images/cat.png", [7])], [⟨"cat.png", 1, "png", "images/cat.png", 0⟩], true, 1⟩).2.1 =
      [.dbDeleteByName "cat.png", .s3Delete "b" "images/cat.png"] :=
  ⟨((C4_delete_metadata_first ⟨"b", "q"⟩ "cat.png"
      ⟨[("images/cat.png", [7])], [], true, 0⟩ rfl).1 (by decide)).2.1,
   (C4_delete_metadata_first ⟨"b", "q"⟩ "cat.png"
      ⟨[("images/cat.png", [7])], [⟨"cat.png", 1, "png", "images/cat.png", 0⟩], true, 1⟩ rfl).2
      (by decide)⟩

theorem lookup_putObject (s3 : List (String × List Nat)) (k : String) (v : List Nat) :
    (FlaskApp.putObject s3 k v).lookup k = some v := by
  induction s3 with
  | nil => simp [FlaskApp.putObject, List.lookup]
  | cons p rest ih =>
      by_cases h : p.1 = k
      · simpa [FlaskApp.putObject, h] using ih
      · simp only [FlaskApp.putObject, List.filter_cons] at ih ⊢
        simp only [h, decide_not, decide_eq_true_eq]
        simp [List.lookup, show (k == p.1) = false by simp [Ne.symm h]]
        simpa [decide_not] using ih

/-- C1: uploading `cat.png` with 1024 bytes of content (database
reachable) puts the raw bytes at key `images/cat.png`, emits exactly one
row insert with `file_size = 1024` and `file_extension = "png"`, exactly
one queue send whose JSON body carries `cat.png` (an explicit substring
occurrence), and returns 201 with the stored name, size, and extension. -/
theorem C1_upload_cat_png (cfg : FlaskApp.Config) (content : List Nat)
    (st : FlaskApp.AppState) (hlen : content.length = 1024) (hdb : st.dbOk = true) :
    FlaskApp.upload_image cfg ⟨some ⟨"cat.png", content⟩⟩ st =
      (⟨201, .json (.obj
          [("success", .bool true),
           ("message", .str "Image cat.png uploaded successfully"),
           ("image_name", .str "cat.png"),
           ("size", .num 1024),
           ("extension", .str "png")])⟩,
       [.s3Put cfg.bucket "images/cat.png" content,
        .dbInsert "cat.png" 1024 "png" "images/cat.png",
        .sqsSend cfg.queueUrl
          (json_dumps (FlaskApp.uploadMessage "cat.png" 1024 "png" (isoTimestamp st.now)
            "images/cat.png"))
          "png"],
       ⟨FlaskApp.putObject st.s3 "images/cat.png" content,
        st.db ++ [⟨"cat.png", 1024, "png", "images/cat.png", st.now⟩],
        st.dbOk, st.now + 1⟩) ∧
    (FlaskApp.upload_image cfg ⟨some ⟨"cat.png", content⟩⟩ st).2.2.s3.lookup "images/cat.png" =
      some content ∧
    (∃ a b : String,
      json_dumps (FlaskApp.uploadMessage "cat.png" 1024 "png" (isoTimestamp st.now)
        "images/cat.png") = a ++ "cat.png" ++ b) := by
  refine ⟨?_, ?_, ?_⟩
  · simp [FlaskApp.upload_image, hdb, hlen, show file_extension_of "cat.png" = "png" from by decide]
  · simp only [FlaskApp.upload_image]
    simp only [show ("cat.png" : String) = "" ↔ False from by simp, if_false, hdb,
      Bool.true_eq_false, ite_false]
    exact lookup_putObject st.s3 "images/cat.png" content
  · refine ⟨"\x7b" ++ ("\"" ++ jstrEscape "image_name" ++ "\": ") ++ "\"",
      "\"" ++ ", " ++
        ("\"" ++ jstrEscape "file_size" ++ "\": " ++ json_dumps (.num 1024) ++ ", " ++
         ("\"" ++ jstrEscape "file_extension" ++ "\": " ++ json_dumps (.str "png") ++ ", " ++
          ("\"" ++ jstrEscape "timestamp" ++ "\": " ++
             json_dumps (.str (isoTimestamp st.now)) ++ ", " ++
           ("\"" ++ jstrEscape "s3_key" ++ "\": " ++ json_dumps (.str "images/cat.png"))))) ++
        "\x7d", ?_⟩
    rw [show json_dumps (FlaskApp.uploadMessage "cat.png" 1024 "png" (isoTimestamp st.now)
        "images/cat.png") =
      "\x7b" ++ ("\"" ++ jstrEscape "image_name" ++ "\": " ++
          ("\"" ++ jstrEscape "cat.png" ++ "\"") ++ ", " ++
        ("\"" ++ jstrEscape "file_size" ++ "\": " ++ json_dumps (.num 1024) ++ ", " ++
         ("\"" ++ jstrEscape "file_extension" ++ "\": " ++ json_dumps (.str "png") ++ ", " ++
          ("\"" ++ jstrEscape "timestamp" ++ "\": " ++
             json_dumps (.str (isoTimestamp st.now)) ++ ", " ++
           ("\"" ++ jstrEscape "s3_key" ++ "\": " ++
             json_dumps (.str "images/cat.png")))))) ++ "\x7d" from rfl]
    rw [show jstrEscape "cat.png" = "cat.png" from rfl]
    simp only [String.append_assoc]

/-- C1 witness: a concrete 1024-byte upload of `cat.png` against an empty
state; the stored object holds exactly the uploaded bytes. -/
theorem C1_upload_cat_png_witness :
    (FlaskApp.upload_image ⟨"b", "q"⟩ ⟨some ⟨"cat.png", List.replicate 1024 0⟩⟩
        ⟨[], [], true, 0⟩).2.2.s3.lookup "images/cat.png" = some (List.replicate 1024 0) :=
  (C1_upload_cat_png ⟨"b", "q"⟩ (List.replicate 1024 0) ⟨[], [], true, 0⟩
    (by rw [List.length_replicate]) rfl).2.1

/-- C10: for any successful upload, the size is the byte length of the
content and the extension is derived once from the filename, and those
same two values appear in the metadata insert, the queue message body,
the queue message's `Extension` attribute, and the 201 response body. -/
theorem C10_upload_consistency (cfg : FlaskApp.Config) (fn : String) (content : List Nat)
    (st : FlaskApp.AppState) (hfn : fn ≠ "") (hdb : st.dbOk = true) :
    FlaskApp.upload_image cfg ⟨some ⟨fn, content⟩⟩ st =
      (⟨201, .json (.obj
          [("success", .bool true),
           ("message", .str ("Image " ++ fn ++ " uploaded successfully")),
           ("image_name", .str fn),
           ("size", .num content.length),
           ("extension", .str (file_extension_of fn))])⟩,
       [.s3Put cfg.bucket ("images/" ++ fn) content,
        .dbInsert fn content.length (file_extension_of fn) ("images/" ++ fn),
        .sqsSend cfg.queueUrl
          (json_dumps (FlaskApp.uploadMessage fn content.length (file_extension_of fn)
            (isoTimestamp st.now) ("images/" ++ fn)))
          (file_extension_of fn)],
       ⟨FlaskApp.putObject st.s3 ("images/" ++ fn) content,
        st.db ++ [⟨fn, content.length, file_extension_of fn, "images/" ++ fn, st.now⟩],
        st.dbOk, st.now + 1⟩) := by
  simp [FlaskApp.upload_image, hfn, hdb]

/-- C10 witness: a concrete upload of `dog.JPG` with three bytes. -/
theorem C10_upload_consistency_witness :
    FlaskApp.upload_image ⟨"b", "q"⟩ ⟨some ⟨"dog.JPG", [1, 2, 3]⟩⟩ ⟨[], [], true, 0⟩ =
      (⟨201, .json (.obj
          [("success", .bool true),
           ("message", .str "Image dog.JPG uploaded successfully"),
           ("image_name", .str "dog.JPG"),
           ("size", .num 3),
           ("extension", .str (file_extension_of "dog.JPG"))])⟩,
       [.s3Put "b" "images/dog.JPG" [1, 2, 3],
        .dbInsert "dog.JPG" 3 (file_extension_of "dog.JPG") "images/dog.JPG",
        .sqsSend "q"
          (json_dumps (FlaskApp.uploadMessage "dog.JPG" 3 (file_extension_of "dog.JPG")
            (isoTimestamp 0) "images/dog.JPG"))
          (file_extension_of "dog.JPG")],
       ⟨FlaskApp.putObject [] "images/dog.JPG" [1, 2, 3],
        [⟨"dog.JPG", 3, file_extension_of "dog.JPG", "images/dog.JPG", 0⟩],
        true, 1⟩) :=
  C10_upload_consistency ⟨"b", "q"⟩ "dog.JPG" [1, 2, 3] ⟨[], [], true, 0⟩ (by decide) rfl

theorem flatMap_publishFor_length (topic : String) (records : List Worker.SqsRecord)
    (h : ∀ r ∈ records, ∃ f, Worker.decodeUpload r.body = .ok f) :
    (records.flatMap (Worker.publishFor topic)).length = records.length := by
  induction records with
  | nil => rfl
  | cons r rest ih =>
      obtain ⟨f, hf⟩ := h r (by simp)
      simp [Worker.publishFor, hf, ih (fun x hx => h x (by simp [hx]))]

theorem processRecords_all_ok (topic : String) (records : List Worker.SqsRecord)
    (h : ∀ r ∈ records, ∃ f, Worker.decodeUpload r.body = .ok f) :
    Worker.processRecords topic records = (records.flatMap (Worker.publishFor topic), none) := by
  induction records with
  | nil => rfl
  | cons r rest ih =>
      obtain ⟨f, hf⟩ := h r (by simp)
      simp [Worker.processRecords, hf, Worker.publishFor,
        ih (fun x hx => h x (by simp [hx]))]

/-- C5: on a batch whose every record decodes successfully, the worker
makes exactly one topic publish per record (the effect list is the
per-record publishes, one each) and returns the 200 payload whose body is
the JSON dump of `Processed N messages` for `N` the batch length. -/
theorem C5_worker_all_ok (topic : String) (records : List Worker.SqsRecord)
    (h : ∀ r ∈ records, ∃ f, Worker.decodeUpload r.body = .ok f) :
    (Worker.lambda_handler topic records).1 = records.flatMap (Worker.publishFor topic) ∧
    (records.flatMap (Worker.publishFor topic)).length = records.length ∧
    (Worker.lambda_handler topic records).2 = .ok ⟨200,
      json_dumps (.str ("Processed " ++ toString records.length ++ " messages"))⟩ := by
  have h1 := processRecords_all_ok topic records h
  exact ⟨by simp [Worker.lambda_handler, h1], flatMap_publishFor_length topic records h,
    by simp [Worker.lambda_handler, h1]⟩

/-- C5 witness: a concrete batch of two well-formed messages yields two
publishes and the payload `"Processed 2 messages"`. -/
theorem C5_worker_all_ok_witness :
    (Worker.lambda_handler "arn"
        [⟨"\x7b\"image_name\": \"a.png\", \"file_size\": 10, \"file_extension\": \"png\", \"timestamp\": \"T1\", \"s3_key\": \"images/a.png\"\x7d"⟩,
         ⟨"\x7b\"image_name\": \"b.jpg\", \"file_size\": 2048, \"file_extension\": \"jpg\", \"timestamp\": \"T2\", \"s3_key\": \"images/b.jpg\"\x7d"⟩]).1
      = [⟨"\x7b\"image_name\": \"a.png\", \"file_size\": 10, \"file_extension\": \"png\", \"timestamp\": \"T1\", \"s3_key\": \"images/a.png\"\x7d"⟩,
         ⟨"\x7b\"image_name\": \"b.jpg\", \"file_size\": 2048, \"file_extension\": \"jpg\", \"timestamp\": \"T2\", \"s3_key\": \"images/b.jpg\"\x7d"⟩].flatMap
          (Worker.publishFor "arn") ∧
    ([(⟨"\x7b\"image_name\": \"a.png\", \"file_size\": 10, \"file_extension\": \"png\", \"timestamp\": \"T1\", \"s3_key\": \"images/a.png\"\x7d"⟩ : Worker.SqsRecord),
      ⟨"\x7b\"image_name\": \"b.jpg\", \"file_size\": 2048, \"file_extension\": \"jpg\", \"timestamp\": \"T2\", \"s3_key\": \"images/b.jpg\"\x7d"⟩].flatMap
        (Worker.publishFor "arn")).length = 2 ∧
    (Worker.lambda_handler "arn"
        [⟨"\x7b\"image_name\": \"a.png\", \"file_size\": 10, \"file_extension\": \"png\", \"timestamp\": \"T1\", \"s3_key\": \"images/a.png\"\x7d"⟩,
         ⟨"\x7b\"image_name\": \"b.jpg\", \"file_size\": 2048, \"file_extension\": \"jpg\", \"timestamp\": \"T2\", \"s3_key\": \"images/b.jpg\"\x7d"⟩]).2
      = .ok ⟨200, "\"Processed 2 messages\""⟩ :=
  C5_worker_all_ok "arn" _ (by
    intro r hr
    rcases List.mem_cons.mp hr with h1 | hr2
    · subst h1; exact ⟨⟨"a.png", 10, "png", "T1"⟩, rfl⟩
    · rcases List.mem_cons.mp hr2 with h2 | h3
      · subst h2; exact ⟨⟨"b.jpg", 2048, "jpg", "T2"⟩, rfl⟩
      · exact absurd h3 (List.not_mem_nil r))

theorem processRecords_first_failure (topic : String) (pre : List Worker.SqsRecord)
    (r : Worker.SqsRecord) (rest : List Worker.SqsRecord) (e : String)
    (hpre : ∀ p ∈ pre, ∃ f, Worker.decodeUpload p.body = .ok f)
    (hr : Worker.decodeUpload r.body = .error e) :
    Worker.processRecords topic (pre ++ r :: rest) =
      (pre.flatMap (Worker.publishFor topic) ++
        [.logError ("Error processing message: " ++ e)], some e) := by
  induction pre with
  | nil => simp [Worker.processRecords, hr]
  | cons p ps ih =>
      obtain ⟨f, hf⟩ := hpre p (by simp)
      simp [Worker.processRecords, hf, Worker.publishFor,
        ih (fun x hx => hpre x (by simp [hx]))]

/-- C3: when the first failing record of a batch sits after a prefix of
well-formed records, the worker publishes only for that prefix (one
publish per prefix record), logs the failing record's error, re-raises it
(`Except.error`, no success payload), and performs nothing for any record
after the failure — the records in `rest` contribute no effect. -/
theorem C3_worker_batch_failure (topic : String) (pre : List Worker.SqsRecord)
    (r : Worker.SqsRecord) (rest : List Worker.SqsRecord) (e : String)
    (hpre : ∀ p ∈ pre, ∃ f, Worker.decodeUpload p.body = .ok f)
    (hr : Worker.decodeUpload r.body = .error e) :
    Worker.lambda_handler topic (pre ++ r :: rest) =
      (pre.flatMap (Worker.publishFor topic) ++
        [.logError ("Error processing message: " ++ e)], .error e) ∧
    (pre.flatMap (Worker.publishFor topic)).length = pre.length := by
  have h1 := processRecords_first_failure topic pre r rest e hpre hr
  exact ⟨by simp [Worker.lambda_handler, h1], flatMap_publishFor_length topic pre hpre⟩

/-- C3 witness: a batch of two messages whose second is malformed JSON:
message 1 is published, the error is logged and re-raised, and no success
payload is produced. -/
theorem C3_worker_batch_failure_witness :
    Worker.lambda_handler "arn"
        [⟨"\x7b\"image_name\": \"a.png\", \"file_size\": 10, \"file_extension\": \"png\", \"timestamp\": \"T1\", \"s3_key\": \"images/a.png\"\x7d"⟩,
         ⟨"\x7bnot json"⟩] =
      ([Worker.publishEffect "arn" ⟨"a.png", 10, "png", "T1"⟩,
        .logError "Error processing message: Expecting property name"],
       .error "Expecting property name") :=
  (C3_worker_batch_failure "arn"
    [⟨"\x7b\"image_name\": \"a.png\", \"file_size\": 10, \"file_extension\": \"png\", \"timestamp\": \"T1\", \"s3_key\": \"images/a.png\"\x7d"⟩]
    ⟨"\x7bnot json"⟩ [] "Expecting property name"
    (by
      intro p hp
      rw [List.mem_singleton] at hp
      subst hp
      exact ⟨⟨"a.png", 10, "png", "T1"⟩, rfl⟩)
    rfl).1

/-- C8: every successfully decoded record is published to the topic with
the extension as the message attribute and the fixed-template text, which
contains (as explicit substrings) the image name, the size in bytes, the
size divided by 1024 rendered to two decimals, the extension, and the
timestamp. -/
theorem C8_worker_notification (topic : String) (r : Worker.SqsRecord)
    (f : Worker.UploadFields) (h : Worker.decodeUpload r.body = .ok f) :
    (Worker.lambda_handler topic [r]).1 =
      [.snsPublish topic ("Image Upload: " ++ f.image_name) (Worker.snsMessageText f)
        f.file_extension] ∧
    (∃ a b, Worker.snsMessageText f = a ++ f.image_name ++ b) ∧
    (∃ a b, Worker.snsMessageText f = a ++ toString f.file_size ++ b) ∧
    (∃ a b, Worker.snsMessageText f = a ++ formatKB f.file_size ++ b) ∧
    (∃ a b, Worker.snsMessageText f = a ++ f.file_extension ++ b) ∧
    (∃ a b, Worker.snsMessageText f = a ++ f.timestamp ++ b) := by
  refine ⟨?_, ?_, ?_, ?_, ?_, ?_⟩
  · simp [Worker.lambda_handler, Worker.processRecords, h, Worker.publishEffect]
  · exact ⟨"Image Upload Notification\n========================\n\nAn image has been uploaded to the image repository.\n\nImage Details:\n- Name: ",
      "\n- Size: " ++ toString f.file_size ++ " bytes (" ++ formatKB f.file_size
        ++ " KB)\n- Extension: " ++ f.file_extension
        ++ "\n- Uploaded: " ++ f.timestamp
        ++ "\n\nThank you for using our image upload service!",
      by simp only [Worker.snsMessageText, String.append_assoc]⟩
  · exact ⟨"Image Upload Notification\n========================\n\nAn image has been uploaded to the image repository.\n\nImage Details:\n- Name: "
        ++ f.image_name ++ "\n- Size: ",
      " bytes (" ++ formatKB f.file_size
        ++ " KB)\n- Extension: " ++ f.file_extension
        ++ "\n- Uploaded: " ++ f.timestamp
        ++ "\n\nThank you for using our image upload service!",
      by simp only [Worker.snsMessageText, String.append_assoc]⟩
  · exact ⟨"Image Upload Notification\n========================\n\nAn image has been uploaded to the image repository.\n\nImage Details:\n- Name: "
        ++ f.image_name ++ "\n- Size: " ++ toString f.file_size ++ " bytes (",
      " KB)\n- Extension: " ++ f.file_extension
        ++ "\n- Uploaded: " ++ f.timestamp
        ++ "\n\nThank you for using our image upload service!",
      by simp only [Worker.snsMessageText, String.append_assoc]⟩
  · exact ⟨"Image Upload Notification\n========================\n\nAn image has been uploaded to the image repository.\n\nImage Details:\n- Name: "
        ++ f.image_name ++ "\n- Size: " ++ toString f.file_size ++ " bytes ("
        ++ formatKB f.file_size ++ " KB)\n- Extension: ",
      "\n- Uploaded: " ++ f.timestamp
        ++ "\n\nThank you for using our image upload service!",
      by simp only [Worker.snsMessageText, String.append_assoc]⟩
  · exact ⟨"Image Upload Notification\n========================\n\nAn image has been uploaded to the image repository.\n\nImage Details:\n- Name: "
        ++ f.image_name ++ "\n- Size: " ++ toString f.file_size ++ " bytes ("
        ++ formatKB f.file_size ++ " KB)\n- Extension: " ++ f.file_extension
        ++ "\n- Uploaded: ",
      "\n\nThank you for using our image upload service!",
      by simp only [Worker.snsMessageText, String.append_assoc]⟩

/-- C8 witness: the concrete publish for one well-formed message. -/
theorem C8_worker_notification_witness :
    (Worker.lambda_handler "arn"
        [⟨"\x7b\"image_name\": \"a.png\", \"file_size\": 10, \"file_extension\": \"png\", \"timestamp\": \"T1\", \"s3_key\": \"images/a.png\"\x7d"⟩]).1 =
      [.snsPublish "arn" "Image Upload: a.png"
        (Worker.snsMessageText ⟨"a.png", 10, "png", "T1"⟩) "png"] :=
  (C8_worker_notification "arn"
    ⟨"\x7b\"image_name\": \"a.png\", \"file_size\": 10, \"file_extension\": \"png\", \"timestamp\": \"T1\", \"s3_key\": \"images/a.png\"\x7d"⟩
    ⟨"a.png", 10, "png", "T1"⟩ rfl).1

theorem pairwise_desc_positions {l : List MetaRow} {x y : MetaRow}
    (hp : l.Pairwise (fun a b => b.last_update ≤ a.last_update))
    (hx : x ∈ l) (hy : y ∈ l) (hlt : y.last_update < x.last_update) :
    ∃ i j : Nat, i < j ∧ l[i]? = some x ∧ l[j]? = some y := by
  obtain ⟨i, hi⟩ := List.mem_iff_get.mp hx
  obtain ⟨j, hj⟩ := List.mem_iff_get.mp hy
  have hij : (i : Nat) < (j : Nat) := by
    rcases lt_trichotomy (i : Nat) (j : Nat) with h | h | h
    · exact h
    · exfalso
      have hxy : x = y := by rw [← hi, ← hj]; exact congrArg l.get (Fin.ext h)
      rw [hxy] at hlt
      exact lt_irrefl _ hlt
    · exfalso
      have hle := List.pairwise_iff_get.mp hp j i h
      rw [hi, hj] at hle
      exact absurd hlt (not_lt.mpr hle)
  refine ⟨i, j, hij, ?_, ?_⟩
  · rw [List.getElem?_eq_getElem i.isLt, ← List.get_eq_getElem, hi]
  · rw [List.getElem?_eq_getElem j.isLt, ← List.get_eq_getElem, hj]

theorem sortedRows_pairwise (db : List MetaRow) :
    (FlaskApp.sortedRows db).Pairwise (fun a b => b.last_update ≤ a.last_update) := by
  have h := @List.sorted_mergeSort MetaRow
    (fun a b : MetaRow => decide (b.last_update ≤ a.last_update))
    (fun a b c hab hbc => by
      simp only [decide_eq_true_eq] at *
      exact le_trans hbc hab)
    (fun a b => by
      simp only [Bool.or_eq_true, decide_eq_true_eq]
      exact Nat.le_total b.last_update a.last_update)
    db
  exact h.imp (fun hab => of_decide_eq_true hab)

/-- C6: the listing returns, for any reachable-database state, exactly the
table's rows (a permutation, with the count as `total`) ordered by
`last_update` descending; and after uploading image A then image B into
any state, B's row appears at a strictly earlier position than A's row in
the listing's `images` array. -/
theorem C6_listing_ordered_desc :
    (∀ st : FlaskApp.AppState, st.dbOk = true →
      (FlaskApp.list_images st).1 = ⟨200, .json (.obj
        [("images", .arr ((FlaskApp.sortedRows st.db).map FlaskApp.rowJson)),
         ("total", .num ((FlaskApp.sortedRows st.db).length : Int))])⟩ ∧
      (FlaskApp.sortedRows st.db).Perm st.db ∧
      (FlaskApp.sortedRows st.db).length = st.db.length ∧
      (FlaskApp.sortedRows st.db).Pairwise (fun a b => b.last_update ≤ a.last_update)) ∧
    (∀ (cfg : FlaskApp.Config) (fA fB : FlaskApp.FilePart) (st0 : FlaskApp.AppState),
      st0.dbOk = true → fA.filename ≠ "" → fB.filename ≠ "" →
      ∃ i j : Nat, i < j ∧
        ((FlaskApp.sortedRows ((FlaskApp.upload_image cfg ⟨some fB⟩
            ((FlaskApp.upload_image cfg ⟨some fA⟩ st0).2.2)).2.2).db).map FlaskApp.rowJson)[i]? =
          some (FlaskApp.rowJson ⟨fB.filename, fB.content.length,
            file_extension_of fB.filename, "images/" ++ fB.filename, st0.now + 1⟩) ∧
        ((FlaskApp.sortedRows ((FlaskApp.upload_image cfg ⟨some fB⟩
            ((FlaskApp.upload_image cfg ⟨some fA⟩ st0).2.2)).2.2).db).map FlaskApp.rowJson)[j]? =
          some (FlaskApp.rowJson ⟨fA.filename, fA.content.length,
            file_extension_of fA.filename, "images/" ++ fA.filename, st0.now⟩)) := by
  constructor
  · intro st h
    refine ⟨by simp [FlaskApp.list_images, h, FlaskApp.sortedRows], ?_, ?_,
      sortedRows_pairwise st.db⟩
    · exact List.mergeSort_perm st.db _
    · exact List.length_mergeSort st.db
  · intro cfg fA fB st0 hdb hA hB
    have hst1 : (FlaskApp.upload_image cfg ⟨some fA⟩ st0).2.2 =
        ⟨FlaskApp.putObject st0.s3 ("images/" ++ fA.filename) fA.content,
         st0.db ++ [⟨fA.filename, fA.content.length, file_extension_of fA.filename,
           "images/" ++ fA.filename, st0.now⟩],
         st0.dbOk, st0.now + 1⟩ := by
      simp [FlaskApp.upload_image, hA, hdb]
    have hst2 : (FlaskApp.upload_image cfg ⟨some fB⟩
        ((FlaskApp.upload_image cfg ⟨some fA⟩ st0).2.2)).2.2.db =
        (st0.db ++ [⟨fA.filename, fA.content.length, file_extension_of fA.filename,
           "images/" ++ fA.filename, st0.now⟩]) ++
        [⟨fB.filename, fB.content.length, file_extension_of fB.filename,
           "images/" ++ fB.filename, st0.now + 1⟩] := by
      rw [hst1]
      simp [FlaskApp.upload_image, hB, hdb]
    set rowA : MetaRow := ⟨fA.filename, fA.content.length, file_extension_of fA.filename,
      "images/" ++ fA.filename, st0.now⟩ with hrowA
    set rowB : MetaRow := ⟨fB.filename, fB.content.length, file_extension_of fB.filename,
      "images/" ++ fB.filename, st0.now + 1⟩ with hrowB
    have hperm := List.mergeSort_perm ((FlaskApp.upload_image cfg ⟨some fB⟩
        ((FlaskApp.upload_image cfg ⟨some fA⟩ st0).2.2)).2.2.db)
      (fun a b : MetaRow => decide (b.last_update ≤ a.last_update))
    have hmemB : rowB ∈ FlaskApp.sortedRows ((FlaskApp.upload_image cfg ⟨some fB⟩
        ((FlaskApp.upload_image cfg ⟨some fA⟩ st0).2.2)).2.2.db) := by
      rw [FlaskApp.sortedRows]
      exact hperm.mem_iff.mpr (by rw [hst2]; simp)
    have hmemA : rowA ∈ FlaskApp.sortedRows ((FlaskApp.upload_image cfg ⟨some fB⟩
        ((FlaskApp.upload_image cfg ⟨some fA⟩ st0).2.2)).2.2.db) := by
      rw [FlaskApp.sortedRows]
      exact hperm.mem_iff.mpr (by rw [hst2]; simp)
    obtain ⟨i, j, hij, hgi, hgj⟩ := pairwise_desc_positions
      (sortedRows_pairwise _) hmemB hmemA (by simp [hrowA, hrowB])
    refine ⟨i, j, hij, ?_, ?_⟩
    · rw [List.getElem?_map, hgi]; rfl
    · rw [List.getElem?_map, hgj]; rfl

/-- C6 witness: the listing response over a one-row table, and the
existence of B-before-A positions after two concrete uploads. -/
theorem C6_listing_ordered_desc_witness :
    (FlaskApp.list_images ⟨[], [⟨"a.png", 1, "png", "images/a.png", 0⟩], true, 1⟩).1 =
      ⟨200, .json (.obj
        [("images", .arr ((FlaskApp.sortedRows
            [⟨"a.png", 1, "png", "images/a.png", 0⟩]).map FlaskApp.rowJson)),
         ("total", .num ((FlaskApp.sortedRows
            [(⟨"a.png", 1, "png", "images/a.png", 0⟩ : MetaRow)]).length : Int))])⟩ ∧
    (∃ i j : Nat, i < j ∧
      ((FlaskApp.sortedRows ((FlaskApp.upload_image ⟨"b", "q"⟩ ⟨some ⟨"b.jpg", [1, 2]⟩⟩
          ((FlaskApp.upload_image ⟨"b", "q"⟩ ⟨some ⟨"a.png", [0]⟩⟩
            ⟨[], [], true, 0⟩).2.2)).2.2).db).map FlaskApp.rowJson)[i]? =
        some (FlaskApp.rowJson ⟨"b.jpg", 2, file_extension_of "b.jpg", "images/b.jpg", 1⟩) ∧
      ((FlaskApp.sortedRows ((FlaskApp.upload_image ⟨"b", "q"⟩ ⟨some ⟨"b.jpg", [1, 2]⟩⟩
          ((FlaskApp.upload_image ⟨"b", "q"⟩ ⟨some ⟨"a.png", [0]⟩⟩
            ⟨[], [], true, 0⟩).2.2)).2.2).db).map FlaskApp.rowJson)[j]? =
        some (FlaskApp.rowJson ⟨"a.png", 1, file_extension_of "a.png", "images/a.png", 0⟩)) :=
  ⟨(C6_listing_ordered_desc.1 ⟨[], [⟨"a.png", 1, "png", "images/a.png", 0⟩], true, 1⟩ rfl).1,
   C6_listing_ordered_desc.2 ⟨"b", "q"⟩ ⟨"a.png", [0]⟩ ⟨"b.jpg", [1, 2]⟩ ⟨[], [], true, 0⟩
     rfl (by decide) (by decide)⟩
